import Mathlib

/-!
Shallow embedding of `src/copy_file_range_stub.c` from the lean-zig
repository, together with theorems settling the specification claims.

The C source is a single function:

    ssize_t copy_file_range(int fd_in, off_t *off_in,
                            int fd_out, off_t *off_out,
                            size_t len, unsigned int flags)
    {
        errno = ENOSYS;
        return -1;
    }

We model the observable program state explicitly: the per-call-context
error indicator `errno`, the contents and positions of the files behind
each file descriptor, and the memory that the optional offset pointers
may point into.  The function body is also embedded as a straight-line
instruction list with a fuel-indexed executor, so that termination and
step-count claims are statable.
-/

/-- The Linux `ENOSYS` error code ("function not implemented"),
value 38 in `asm-generic/errno.h`, referenced by `errno.h` in the stub. -/
def ENOSYS : Int := 38

/-- Observable program state surrounding a call to the stub:
the error indicator `errno`, the file contents and file positions
indexed by file descriptor, and user memory (which the `off_t*`
offset pointers, when non-null, point into). -/
structure ProgState where
  errno : Int
  fileContents : Int → List Nat
  filePos : Int → Nat
  mem : Nat → Int
deriving Inhabited

/-- The argument list of `copy_file_range`:
`int fd_in, off_t *off_in, int fd_out, off_t *off_out, size_t len,
unsigned int flags`.  A C pointer is modelled as `Option Nat`:
`none` is the null pointer, `some a` a pointer to address `a` in `mem`. -/
structure CfrArgs where
  fd_in : Int
  off_in : Option Nat
  fd_out : Int
  off_out : Option Nat
  len : Nat
  flags : Nat
deriving Inhabited

/-- The body of `copy_file_range` from `src/copy_file_range_stub.c`:
it sets `errno` to `ENOSYS` and returns `-1`.  No argument is read and
no other component of the state is touched, which the structure-update
expression makes explicit. -/
def copy_file_range (a : CfrArgs) (s : ProgState) : Int × ProgState :=
  (-1, { s with errno := ENOSYS })

/-- Instructions of a tiny straight-line machine, just rich enough to
express the two statements of the stub's body.  There is no loop, jump,
blocking or suspension construct. -/
inductive Instr where
  | setErrno : Int → Instr
  | ret : Int → Instr
deriving DecidableEq

/-- The stub's body as an instruction list: `errno = ENOSYS; return -1;`.
The list is a constant: no instruction inspects the arguments. -/
def cfrBody : List Instr := [Instr.setErrno ENOSYS, Instr.ret (-1)]

/-- Fuel-indexed executor for the straight-line machine.  `none` means
the execution did not complete within the given fuel (or fell off the
end without returning); `some (v, s)` means it returned value `v` in
state `s`. -/
def execFuel : Nat → List Instr → ProgState → Option (Int × ProgState)
  | 0, _, _ => none
  | _ + 1, [], _ => none
  | n + 1, Instr.setErrno v :: rest, s => execFuel n rest { s with errno := v }
  | _ + 1, Instr.ret v :: _, s => some (v, s)

/-- Multi-threaded view of the state for the concurrency claim:
`errno` is per-thread (`errnoOf t` is thread `t`'s error indicator),
while files and memory are shared. -/
structure MTState where
  errnoOf : Nat → Int
  fileContents : Int → List Nat
  filePos : Int → Nat
  mem : Nat → Int
deriving Inhabited

/-- `copy_file_range` as executed by thread `t` on the multi-threaded
state: it writes `ENOSYS` into thread `t`'s own error indicator and
returns `-1`; shared files and memory are untouched. -/
def copy_file_range_mt (t : Nat) (a : CfrArgs) (s : MTState) : Int × MTState :=
  (-1, { s with errnoOf := fun u => if u = t then ENOSYS else s.errnoOf u })

/-- C1: for every argument combination and every starting state,
`copy_file_range` returns the failure sentinel `-1`; in particular it
never returns `0` and never returns a positive byte count. -/
theorem cfr_returns_minus_one (a : CfrArgs) (s : ProgState) :
    (copy_file_range a s).1 = -1 ∧
    (copy_file_range a s).1 ≠ 0 ∧
    ¬ 0 < (copy_file_range a s).1 := by
  refine ⟨rfl, by simp [copy_file_range], by simp [copy_file_range]⟩

/-- C2: every call to `copy_file_range`, regardless of its arguments
and of the prior state, leaves the error indicator equal to `ENOSYS`,
and `ENOSYS` is the one error code the body can store. -/
theorem cfr_sets_enosys (a : CfrArgs) (s : ProgState) :
    (copy_file_range a s).2.errno = ENOSYS := rfl

/-- C3: `copy_file_range` is deterministic and input-independent: any
two invocations, with arbitrary (possibly different) arguments and
starting states, produce the same return value and the same post-call
error indicator. -/
theorem cfr_input_independent (a₁ a₂ : CfrArgs) (s₁ s₂ : ProgState) :
    (copy_file_range a₁ s₁).1 = (copy_file_range a₂ s₂).1 ∧
    (copy_file_range a₁ s₁).2.errno = (copy_file_range a₂ s₂).2.errno := ⟨rfl, rfl⟩

/-- C4: `copy_file_range` never dereferences `off_in` or `off_out` and
never reads or mutates memory: its outcome is unchanged when the entire
memory is replaced, the memory component of the state is preserved, and
the call with both offset pointers null is well-defined with the same
outcome as any other call. -/
theorem cfr_no_deref (a : CfrArgs) (s : ProgState) (m : Nat → Int)
    (fi fo : Int) (len flags : Nat) :
    (copy_file_range a { s with mem := m }).1 = (copy_file_range a s).1 ∧
    (copy_file_range a { s with mem := m }).2.errno
      = (copy_file_range a s).2.errno ∧
    (copy_file_range a s).2.mem = s.mem ∧
    copy_file_range ⟨fi, none, fo, none, len, flags⟩ s
      = (-1, { s with errno := ENOSYS }) :=
  ⟨rfl, rfl, rfl, rfl⟩

/-- C5: `copy_file_range` performs no I/O: the contents and positions of
every file (in particular those behind `fd_in` and `fd_out`) and the
memory behind the offset pointers are exactly unchanged by the call. -/
theorem cfr_no_io (a : CfrArgs) (s : ProgState) :
    (copy_file_range a s).2.fileContents = s.fileContents ∧
    (copy_file_range a s).2.filePos = s.filePos ∧
    (copy_file_range a s).2.mem = s.mem ∧
    (copy_file_range a s).2.fileContents a.fd_in = s.fileContents a.fd_in ∧
    (copy_file_range a s).2.fileContents a.fd_out = s.fileContents a.fd_out ∧
    (copy_file_range a s).2.filePos a.fd_in = s.filePos a.fd_in ∧
    (copy_file_range a s).2.filePos a.fd_out = s.filePos a.fd_out :=
  ⟨rfl, rfl, rfl, rfl, rfl, rfl, rfl⟩

/-- C6: `copy_file_range` always terminates: its body, run on the
straight-line machine, completes within a constant two steps for every
input (never `none`, so it never blocks, suspends, or gets stuck on a
fallible operation), and the result agrees with `copy_file_range`. -/
theorem cfr_terminates (a : CfrArgs) (s : ProgState) :
    execFuel 2 cfrBody s = some (copy_file_range a s) ∧
    execFuel 2 cfrBody s = some (-1, { s with errno := ENOSYS }) ∧
    cfrBody.length = 2 := ⟨rfl, rfl, rfl⟩

/-- C7: `copy_file_range` is stateless and reentrant: for any two
threads (equal or distinct) calling with any arguments, the two calls
commute (so interleaving order is unobservable), each caller gets
return value `-1`, and afterwards each caller's own error indicator
reads `ENOSYS`; shared files and memory are untouched by either order. -/
theorem cfr_reentrant (t₁ t₂ : Nat) (a₁ a₂ : CfrArgs) (s : MTState) :
    (copy_file_range_mt t₂ a₂ (copy_file_range_mt t₁ a₁ s).2).2
      = (copy_file_range_mt t₁ a₁ (copy_file_range_mt t₂ a₂ s).2).2 ∧
    (copy_file_range_mt t₁ a₁ s).1 = -1 ∧
    (copy_file_range_mt t₂ a₂ (copy_file_range_mt t₁ a₁ s).2).1 = -1 ∧
    (copy_file_range_mt t₂ a₂ (copy_file_range_mt t₁ a₁ s).2).2.errnoOf t₁
      = ENOSYS ∧
    (copy_file_range_mt t₂ a₂ (copy_file_range_mt t₁ a₁ s).2).2.errnoOf t₂
      = ENOSYS ∧
    (copy_file_range_mt t₂ a₂ (copy_file_range_mt t₁ a₁ s).2).2.fileContents
      = s.fileContents ∧
    (copy_file_range_mt t₂ a₂ (copy_file_range_mt t₁ a₁ s).2).2.mem = s.mem := by
  refine ⟨?_, rfl, rfl, ?_, ?_, rfl, rfl⟩
  · simp only [copy_file_range_mt]
    congr 1
    funext u
    by_cases h₁ : u = t₁ <;> by_cases h₂ : u = t₂ <;> simp [h₁, h₂]
  · simp only [copy_file_range_mt]
    by_cases h : t₁ = t₂ <;> simp [h]
  · simp [copy_file_range_mt]

/-- C8: the only state component `copy_file_range` modifies is the
error indicator, which it overwrites unconditionally: the post-call
state is exactly the pre-call state with `errno` replaced by `ENOSYS`,
for every pre-call `errno` value. -/
theorem cfr_frame (a : CfrArgs) (s : ProgState) :
    (copy_file_range a s).2 = { s with errno := ENOSYS } ∧
    (copy_file_range a s).2.errno = ENOSYS := ⟨rfl, rfl⟩

/-- C9: `copy_file_range` is idempotent on the program state: calling
it twice in succession, with any arguments each time, yields the same
final state as calling it once, and both calls return `-1`. -/
theorem cfr_idempotent (a₁ a₂ : CfrArgs) (s : ProgState) :
    (copy_file_range a₂ (copy_file_range a₁ s).2).2
      = (copy_file_range a₁ s).2 ∧
    (copy_file_range a₂ (copy_file_range a₁ s).2).1 = -1 ∧
    (copy_file_range a₁ s).1 = -1 := ⟨rfl, rfl, rfl⟩
